import Mathlib

/-!
Verification of the Smartsheet workspace-deletion application.

The definitions below are a shallow embedding of the Python sources:
`app/utils.py` (date predicates), `app/service.py` (deletion workflow and
recursive content enumeration) and `app/app_aws_oauth.py` (OAuth token
manager).  External effects (HTTP calls, the Smartsheet API, the AWS
secret store) are modelled by explicit environments and event traces.
-/

/- ## Calendar dates: embedding of `datetime.strptime(s, "%Y-%m-%d")`
   followed by `datetime.date` validation, as used in `app/utils.py`. -/

/-- A calendar date (year, month, day), the result of a successful
`datetime.strptime(s, "%Y-%m-%d").date()`. -/
structure Date where
  year : Nat
  month : Nat
  day : Nat
deriving Repr, DecidableEq

/-- Gregorian leap-year rule used by Python's `datetime`. -/
def isLeapYear (y : Nat) : Bool :=
  y % 4 == 0 && (y % 100 != 0 || y % 400 == 0)

/-- Number of days of month `m` in year `y` (Python `calendar` rule). -/
def daysInMonth (y m : Nat) : Nat :=
  if m == 2 then (if isLeapYear y then 29 else 28)
  else if m == 4 || m == 6 || m == 9 || m == 11 then 30
  else 31

/-- Split a character list on `'-'` separators (mirrors how the
`%Y-%m-%d` format string anchors its two literal dashes). -/
def splitDashes : List Char → List Char → List (List Char)
  | [], acc => [acc.reverse]
  | c :: cs, acc =>
      if c == '-' then acc.reverse :: splitDashes cs []
      else splitDashes cs (c :: acc)

/-- ASCII decimal digit test (the `\d` character class of the compiled
`strptime` regex, restricted to ASCII). -/
def isAsciiDigit (c : Char) : Bool := '0' ≤ c && c ≤ '9'

/-- All characters are ASCII digits. -/
def allDigits (l : List Char) : Bool := l.all isAsciiDigit

/-- Numeric value of a digit string. -/
def digitsToNat (l : List Char) : Nat :=
  l.foldl (fun n c => n * 10 + (c.toNat - 48)) 0

/-- Embedding of `datetime.strptime(s, "%Y-%m-%d")` followed by
`datetime.date` validation, restricted to ASCII digits: the year field
is exactly four digits, month and day are one or two digits within the
ranges accepted by the `strptime` regex, and the resulting triple must
be a valid calendar date (`datetime.date` raises `ValueError`
otherwise, e.g. for Feb 30 or year 0).  CPython's `\d` also matches
non-ASCII Unicode decimal digits -- possible in the four year digits
and in the second digit of a 10-29 day, though not in the month, whose
pattern uses only ASCII literals -- so: every string this function
accepts is parsed by Python to the same date, and on all-ASCII strings
it returns `none` exactly when Python raises `ValueError`; on strings
containing non-ASCII Unicode digits Python may succeed where this
function returns `none`. -/
def parseDate (s : String) : Option Date :=
  match splitDashes s.toList [] with
  | [ys, ms, ds] =>
      let y := digitsToNat ys
      let m := digitsToNat ms
      let d := digitsToNat ds
      if allDigits ys && (ys.length == 4) && (1 ≤ y) &&
         allDigits ms && (1 ≤ ms.length) && (ms.length ≤ 2) && (1 ≤ m) && (m ≤ 12) &&
         allDigits ds && (1 ≤ ds.length) && (ds.length ≤ 2) && (1 ≤ d) && (d ≤ daysInMonth y m)
      then some ⟨y, m, d⟩
      else none
  | _ => none

/-- `date` comparison `a <= b` (lexicographic on year, month, day, which
is how Python's `datetime.date` total order behaves). -/
def dateLe (a b : Date) : Bool :=
  a.year < b.year ||
    (a.year == b.year &&
      (a.month < b.month || (a.month == b.month && a.day ≤ b.day)))

/-- `date` comparison `a < b`. -/
def dateLt (a b : Date) : Bool :=
  a.year < b.year ||
    (a.year == b.year &&
      (a.month < b.month || (a.month == b.month && a.day < b.day)))

/-- The strict and non-strict date orders are dual. -/
theorem dateLt_eq_not_dateLe (a b : Date) : dateLt a b = !dateLe b a := by
  rcases a with ⟨ay, am, ad⟩
  rcases b with ⟨by2, bm, bd⟩
  rw [Bool.eq_iff_iff]
  simp [dateLt, dateLe]
  omega

/- ## `app/utils.py` date predicates -/

/-- Embedding of `utils.is_date_past_or_today`: parse both strings with
`strptime("%Y-%m-%d")`; a `ValueError` on either yields `False`;
otherwise compare `date_a <= date_b`. -/
def is_date_past_or_today (date_string todays_date : String) : Bool :=
  match parseDate date_string, parseDate todays_date with
  | some date_a, some date_b => dateLe date_a date_b
  | _, _ => false

/-- Embedding of `utils.should_workspace_be_deleted`:
`is_date_past_or_today(deletion_date, todays_date) and not
(em_notification_date == todays_date)`. -/
def should_workspace_be_deleted
    (em_notification_date deletion_date todays_date : String) : Bool :=
  let is_today_em := em_notification_date == todays_date
  let is_today_deletion := is_date_past_or_today deletion_date todays_date
  is_today_deletion && !is_today_em

/-- `utils.is_date_past_or_today` with the `datetime.strptime` parser
as an explicit parameter: the try/except structure of the function --
any `ValueError` yields `False` -- does not depend on the parser's
exact acceptance set, and `parseDate` is its ASCII instance. -/
def is_date_past_or_today_gen (strptime : String → Option Date)
    (date_string todays_date : String) : Bool :=
  match strptime date_string, strptime todays_date with
  | some date_a, some date_b => dateLe date_a date_b
  | _, _ => false

/-- `utils.should_workspace_be_deleted` over an explicit parser. -/
def should_workspace_be_deleted_gen (strptime : String → Option Date)
    (em_notification_date deletion_date todays_date : String) : Bool :=
  let is_today_em := em_notification_date == todays_date
  let is_today_deletion :=
    is_date_past_or_today_gen strptime deletion_date todays_date
  is_today_deletion && !is_today_em

/-- The program's predicate is the `parseDate` instance of the
parser-generic one. -/
theorem should_workspace_be_deleted_gen_parseDate :
    should_workspace_be_deleted_gen parseDate = should_workspace_be_deleted := by
  funext em d t
  simp only [should_workspace_be_deleted_gen, should_workspace_be_deleted,
             is_date_past_or_today_gen, is_date_past_or_today]

/- ## Content enumerator: embedding of
   `WorkspaceDeletionService._process_children_recursive` and
   `process_workspace_contents` from `app/service.py`. -/

/-- Python substring test `needle in hay` used on permalinks. -/
def strContains (hay needle : String) : Bool :=
  needle.isEmpty || (hay.toList.tails.any fun t => needle.toList.isPrefixOf t)

/-- A manifest entry `{"id": child.id, "name": child.name, "permalink":
child.permalink}` appended to the sheets/dashboards/folders lists. -/
structure Entry where
  id : Nat
  name : String
  permalink : String
deriving Repr, DecidableEq

/-- A skipped-list entry `{"id": ..., "name": ..., "reason": ...}`. -/
structure SkippedEntry where
  id : String
  name : String
  reason : String
deriving Repr, DecidableEq

/-- The `summary` dictionary built by `process_workspace_contents`. -/
structure Manifest where
  sheets : List Entry
  dashboards : List Entry
  reports : List Entry
  skipped : List SkippedEntry
  folders : List Entry
deriving Repr, DecidableEq

/-- A child object returned by the Smartsheet API for a workspace or
folder.  `dictChild` models the `isinstance(child, dict)` branch; `obj`
models an SDK object with `id`, `name` and `permalink` attributes.  The
`children` field attaches the (deterministic) response of
`repository.get_folder_children(child.id)` for this run, so the
environment of API responses travels with the tree. -/
inductive Child where
  | dictChild (id name : String)
  | obj (id : Nat) (name permalink : String) (children : List Child)
deriving Repr

/-- Classification outcome of the `if`/`elif` permalink chain. -/
inductive ChildKind where
  | sheet
  | dashboard
  | folder
  | other
deriving Repr, DecidableEq

/-- The `if`/`elif` permalink chain of `_process_children_recursive`
(lines 460-470 of `app/service.py`): `"sheets" in child.permalink`,
then `"dashboards" in child.permalink or "sights" in child.permalink`,
then `"folders" in child.permalink`; anything else falls through the
chain with no `else` branch. -/
def classifyPermalink (p : String) : ChildKind :=
  if strContains p "sheets" then .sheet
  else if strContains p "dashboards" || strContains p "sights" then .dashboard
  else if strContains p "folders" then .folder
  else .other

/-- The message of the `AttributeError` raised when `.data` is read on
the plain Python list returned by `repository.get_workspace_children`
and `repository.get_folder_children`. -/
def attrErrorData : String := "'list' object has no attribute 'data'"

/-- One iteration of the `for child in children` loop body of
`_process_children_recursive`: a dict child is appended to `skipped`
with reason `"Child is a dict"`; an object child is appended to the
list selected by its permalink classification; a child matching no
pattern leaves the summary unchanged (the chain has no `else`).  For a
folder child the code appends the folder entry and then calls
`repository.get_folder_children(child.id)` -- which returns a plain
list -- and immediately reads `folder_contents.data` on it
(`app/service.py` lines 474-475), raising `AttributeError` before the
recursive call at line 478 can run; the raise abandons the summary, so
the error value carries no manifest. -/
def process_child (c : Child) (s : Manifest) : Except String Manifest :=
  match c with
  | .dictChild i n =>
      .ok {s with skipped := s.skipped ++ [⟨i, n, "Child is a dict"⟩]}
  | .obj i n p _kids =>
      match classifyPermalink p with
      | .sheet => .ok {s with sheets := s.sheets ++ [⟨i, n, p⟩]}
      | .dashboard => .ok {s with dashboards := s.dashboards ++ [⟨i, n, p⟩]}
      | .folder => .error attrErrorData
      | .other => .ok s

/-- Embedding of `_process_children_recursive` from `app/service.py`:
the `for` loop over `children`, threading the mutated `summary`; an
exception raised in an iteration propagates out of the loop. -/
def process_children_recursive (cs : List Child) (s : Manifest) :
    Except String Manifest :=
  match cs with
  | [] => .ok s
  | c :: rest =>
      match process_child c s with
      | .ok s2 => process_children_recursive rest s2
      | .error e => .error e

/-- The fresh `summary` dictionary initialised at the top of
`process_workspace_contents`. -/
def memptyM : Manifest := ⟨[], [], [], [], []⟩

/-- Embedding of `process_workspace_contents` from `app/service.py`.
`children` is the plain Python list that `repository.get_workspace_children`
returns (repository.py lines 112-159 build and return `all_children`,
a list).  Immediately after that call, line 502 evaluates
`len(workspace_children.data)` -- but a list has no `.data` attribute,
so the function raises `AttributeError` before the recursive
processing at line 505 (which would also read `.data`) can start: it
never returns a manifest. -/
def process_workspace_contents (children : List Child) :
    Except String Manifest :=
  let _workspace_children := children
  .error attrErrorData

/- ## Deletion workflow: embedding of the per-row body of
   `WorkspaceDeletionService.process_deletion_workflow` (`app/service.py`,
   lines 246-415). -/

/-- Python truthiness of an optional string cell value: `None` and the
empty string are falsy. -/
def optTruthy : Option String → Bool
  | none => false
  | some s => !(s == "")

/-- The fields extracted from one intake-sheet row by
`extract_row_data_with_column_ids`; `none` models a missing key in the
extracted dictionary. -/
structure RowData where
  row_id : Nat
  folder_url : Option String
  deletion_date : Option String
  em_notification_date : Option String
  deletion_status : Option String
deriving Repr, DecidableEq

/-- An entry of the summary's `errors` list. -/
structure ErrorEntry where
  row_index : Nat
  row_id : Option Nat
  error : String
deriving Repr, DecidableEq

/-- The workflow `summary` dictionary. -/
structure Summary where
  processed_rows : Nat
  successful_deletions : Nat
  skipped : Nat
  errors : List ErrorEntry
deriving Repr, DecidableEq

/-- Remote API calls issued while processing a row, in order. -/
inductive ApiCall where
  | getWorkspaceCall (workspace_id : Nat)
  | deleteFolderCall (folder_id : Nat)
  | deleteWorkspaceCall (workspace_id : Nat)
  | updateCellCall (row_id : Nat) (new_value : String)
deriving Repr, DecidableEq

/-- Outcome of `repository.update_cell`: it returns `True` on success
and raises `SmartsheetAPIError` otherwise; the `returnedFalse` case
mirrors the (in practice unreachable) `if not update_success` branch of
the caller. -/
inductive CellUpdateResult where
  | succeeded
  | returnedFalse
  | raised
deriving Repr, DecidableEq

/-- The deterministic environment of external responses for one run. -/
structure Env where
  /-- Modelled from the spec: `utils.get_workspace_id_from_csv` is
  imported by `app/service.py` but absent from the sources; the spec
  describes a CSV/file-based lookup table resolving a folder URL to a
  workspace id, with `None` on a miss. -/
  csvLookup : String → Option Nat
  /-- Modelled from the spec: `repository.get_workspace` is called by
  `app/service.py` but absent from `app/repository.py`; the spec's
  workspace-lookup-miss path describes a by-id metadata lookup that
  yields nothing when the workspace does not exist. -/
  getWorkspace : Nat → Option Unit
  /-- The children returned by `repository.get_workspace_children` for
  a workspace id (each folder child carries its own
  `get_folder_children` response). -/
  workspaceTree : Nat → List Child
  /-- Result of `repository.delete_workspace`: `.ok true` on
  `"SUCCESS"`, `.ok false` on a non-success response, `.error msg`
  when `SmartsheetAPIError` is raised. -/
  deleteWorkspace : Nat → Except String Bool
  /-- Outcome of `repository.update_cell` for a row id. -/
  updateCell : Nat → CellUpdateResult

/-- Embedding of one iteration of the `for i, row in enumerate(rows)`
loop of `process_deletion_workflow` (`app/service.py` lines 246-415):
returns the updated summary and the ordered trace of API calls issued
for this row.  The call to `process_workspace_contents` at line 354
raises `AttributeError` for the staged sources; that exception
propagates to the row-level `except Exception` handler at lines
408-415, which appends `{row_index, row_id, str(e)}` to `errors` and
increments `skipped`.  The folder-deletion loop, `delete_workspace`
and the status update (lines 360-406) are kept in the `.ok` branch to
mirror the source text, although that branch is unreachable for the
staged code; there `repository.delete_folder`, absent from the
sources, is modelled from the spec as the per-folder deletion API
call, recorded as a `deleteFolderCall` event. -/
def process_row (env : Env) (todays_date : String) (i : Nat) (row : RowData)
    (summary : Summary) : Summary × List ApiCall :=
  let summary := {summary with processed_rows := summary.processed_rows + 1}
  if !(optTruthy row.folder_url) then
    ({summary with skipped := summary.skipped + 1}, [])
  else
    let folder_url := row.folder_url.getD ""
    let delete_status := row.deletion_status.getD ""
    if delete_status != "" then
      ({summary with skipped := summary.skipped + 1}, [])
    else
      match env.csvLookup folder_url with
      | none => ({summary with skipped := summary.skipped + 1}, [])
      | some workspace_id =>
        match env.getWorkspace workspace_id with
        | none =>
            let summary := {summary with skipped := summary.skipped + 1}
            let calls := [ApiCall.getWorkspaceCall workspace_id,
                          ApiCall.updateCellCall row.row_id "Deleted"]
            match env.updateCell row.row_id with
            | .succeeded =>
                ({summary with successful_deletions := summary.successful_deletions + 1}, calls)
            | .returnedFalse => (summary, calls)
            | .raised => (summary, calls)
        | some _ =>
            match row.deletion_date, row.em_notification_date with
            | some deletion_date, some em_date =>
                if !(should_workspace_be_deleted em_date deletion_date todays_date) then
                  ({summary with skipped := summary.skipped + 1},
                   [ApiCall.getWorkspaceCall workspace_id])
                else
                  match env.csvLookup folder_url with
                  | none =>
                      ({summary with
                          errors := summary.errors ++
                            [⟨i, some row.row_id, "Folder URL not found in workspace data CSV"⟩],
                          skipped := summary.skipped + 1},
                       [ApiCall.getWorkspaceCall workspace_id])
                  | some workspace_id2 =>
                    match process_workspace_contents (env.workspaceTree workspace_id2) with
                    | .error e =>
                        ({summary with
                            errors := summary.errors ++ [⟨i, some row.row_id, e⟩],
                            skipped := summary.skipped + 1},
                         [ApiCall.getWorkspaceCall workspace_id])
                    | .ok contents =>
                      let calls := ApiCall.getWorkspaceCall workspace_id ::
                        (contents.folders.map (fun f => ApiCall.deleteFolderCall f.id)) ++
                        [ApiCall.deleteWorkspaceCall workspace_id2]
                      match env.deleteWorkspace workspace_id2 with
                      | .error e =>
                          ({summary with
                              errors := summary.errors ++ [⟨i, some row.row_id, e⟩],
                              skipped := summary.skipped + 1}, calls)
                      | .ok false =>
                          ({summary with
                              errors := summary.errors ++
                                [⟨i, some row.row_id,
                                  s!"Deletion failed for workspace {workspace_id2}"⟩],
                              skipped := summary.skipped + 1}, calls)
                      | .ok true =>
                          let calls := calls ++ [ApiCall.updateCellCall row.row_id "Deleted"]
                          match env.updateCell row.row_id with
                          | .succeeded =>
                              ({summary with
                                  successful_deletions := summary.successful_deletions + 1}, calls)
                          | .returnedFalse => (summary, calls)
                          | .raised =>
                              ({summary with
                                  successful_deletions := summary.successful_deletions + 1}, calls)
            | _, _ =>
                ({summary with skipped := summary.skipped + 1},
                 [ApiCall.getWorkspaceCall workspace_id])

/-- The row loop of `process_deletion_workflow` over a list of rows. -/
def process_rows (env : Env) (todays_date : String) :
    Nat → List RowData → Summary → Summary × List ApiCall
  | _, [], summary => (summary, [])
  | i, row :: rest, summary =>
      let step := process_row env todays_date i row summary
      let tail := process_rows env todays_date (i + 1) rest step.1
      (tail.1, step.2 ++ tail.2)

/-- Embedding of `process_deletion_workflow` after its setup phase:
fold the per-row body over the sheet's rows starting from the zeroed
summary. -/
def process_deletion_workflow (env : Env) (todays_date : String)
    (rows : List RowData) : Summary × List ApiCall :=
  process_rows env todays_date 0 rows ⟨0, 0, 0, []⟩

/- ## Token manager: embedding of `app/app_aws_oauth.py`. -/

/-- The JSON body of a successful token-endpoint response; each field
is `new_tokens.get('access_token') or new_tokens.get('accessToken')`
(resp. the refresh spellings), `none` when absent. -/
structure TokenResponse where
  access_token : Option String
  refresh_token : Option String
deriving Repr, DecidableEq

/-- Outcome of the `requests.post` call inside `refresh_tokens`:
a 2xx body, an HTTP error with a status code and the parsed OAuth
`error` field of its body (`none` when the body is unreadable),
an HTTP error with no response object, a timeout, or any other
exception. -/
inductive RefreshHttpResult where
  | success (body : TokenResponse)
  | httpError (status : Nat) (oauthError : Option String)
  | noResponse
  | timeout
  | otherFailure (msg : String)
deriving Repr, DecidableEq

/-- The `error_type` field of the structured diagnostic emitted by
`emit_refresh_failure`. -/
inductive RefreshErrorType where
  | token_expired
  | token_revoked
  | network_error
  | unknown
deriving Repr, DecidableEq

/-- Embedding of `refresh_tokens` from `app/app_aws_oauth.py`: on a
successful exchange, the parsed token body; on failure, the function
emits a structured diagnostic via `emit_refresh_failure` and re-raises
-- the `Except.error` value carries the emitted `error_type`:
HTTP 400 with OAuth error `invalid_grant` gives `token_revoked`, 400
with any other readable OAuth error gives `token_expired`, 400 with an
unreadable body gives `unknown`, any other HTTP status (or a missing
response, or a timeout) gives `network_error`, and any other exception
gives `unknown`. -/
def refresh_tokens : RefreshHttpResult → Except RefreshErrorType TokenResponse
  | .success body => .ok body
  | .httpError status oauthError =>
      if status == 400 then
        match oauthError with
        | some err =>
            if err == "invalid_grant" then .error .token_revoked
            else .error .token_expired
        | none => .error .unknown
      else .error .network_error
  | .noResponse => .error .network_error
  | .timeout => .error .network_error
  | .otherFailure _ => .error .unknown

/-- The token secret loaded from the secret store:
`{accessToken, refreshToken}`, each possibly missing. -/
structure TokenData where
  accessToken : Option String
  refreshToken : Option String
deriving Repr, DecidableEq

/-- Externally visible events of `get_smartsheet_client`, in order:
a call to the token refresh endpoint, a successful `save_token_secret`
write of the `{accessToken, refreshToken}` pair, a `save_token_secret`
attempt that raised (the exception is caught and only a warning is
logged), and the return of an authenticated session carrying its
bearer access token. -/
inductive AuthEvent where
  | refreshEndpointCall
  | saveTokensCall (accessToken refreshToken : Option String)
  | saveTokensFailed (accessToken refreshToken : Option String)
  | sessionReturned (accessToken : Option String)
deriving Repr, DecidableEq

/-- Embedding of `get_smartsheet_client` from `app/app_aws_oauth.py`.
`token_data` is the secret read by `get_secret(TOKEN_SECRET_NAME)`
(`none` when the secret is missing or not a dict); `resp` is the
token-endpoint response observed if a refresh is attempted; `save_ok`
is whether the `save_token_secret` store write returns normally
(`false` models it raising).  Returns the session (modelled by its
access token, `none` when the function returns `None`) together with
the ordered trace of `AuthEvent`s.  Lines 192-199 of
`app_aws_oauth.py` wrap the write in `try`/`except Exception`:
a failed persist is logged as a warning and the refreshed session is
returned anyway. -/
def get_smartsheet_client (token_data : Option TokenData)
    (resp : RefreshHttpResult) (save_ok : Bool) :
    Option String × List AuthEvent :=
  match token_data with
  | none => (none, [])
  | some td =>
      if optTruthy td.accessToken then
        (td.accessToken, [.sessionReturned td.accessToken])
      else if optTruthy td.refreshToken then
        match refresh_tokens resp with
        | .error _ => (none, [.refreshEndpointCall])
        | .ok new_tokens =>
            if optTruthy new_tokens.access_token then
              (new_tokens.access_token,
               [.refreshEndpointCall,
                (if save_ok then
                  .saveTokensCall new_tokens.access_token new_tokens.refresh_token
                 else
                  .saveTokensFailed new_tokens.access_token new_tokens.refresh_token),
                .sessionReturned new_tokens.access_token])
            else (none, [.refreshEndpointCall])
      else (none, [])

example : parseDate "2025-06-01" = some ⟨2025, 6, 1⟩ := by decide
example : parseDate "2025-6-1" = some ⟨2025, 6, 1⟩ := by decide
example : parseDate "2025-13-01" = none := by decide
example : parseDate "2025-02-30" = none := by decide
example : parseDate "garbage" = none := by decide
example : parseDate "2024-02-29" = some ⟨2024, 2, 29⟩ := by decide
example : should_workspace_be_deleted "2025-06-01" "2025-06-01" "2025-06-01" = false := by decide
example : should_workspace_be_deleted "2025-05-01" "2025-06-01" "2025-06-15" = true := by decide
example : should_workspace_be_deleted "2025-05-01" "2025-06-01" "2025-05-31" = false := by decide

/-- C1: `should_workspace_be_deleted(em_notification_date, deletion_date,
todays_date)` returns true iff `todays_date` is on or after
`deletion_date` as calendar dates and `todays_date` differs from
`em_notification_date`; in particular it returns false whenever
`todays_date` equals `em_notification_date` (for every deletion date),
and false whenever `todays_date` is strictly before `deletion_date`
(for every notification date). -/
theorem C1_deletion_predicate :
    (∀ em d t a b, parseDate d = some a → parseDate t = some b →
        (should_workspace_be_deleted em d t = true ↔ (dateLe a b = true ∧ t ≠ em)))
    ∧ (∀ em d t, t = em → should_workspace_be_deleted em d t = false)
    ∧ (∀ em d t a b, parseDate d = some a → parseDate t = some b →
        dateLt b a = true → should_workspace_be_deleted em d t = false) := by
  have key : ∀ em d t a b, parseDate d = some a → parseDate t = some b →
      should_workspace_be_deleted em d t = (dateLe a b && !(em == t)) := by
    intro em d t a b ha hb
    simp only [should_workspace_be_deleted, is_date_past_or_today, ha, hb]
  refine ⟨?_, ?_, ?_⟩
  · intro em d t a b ha hb
    rw [key em d t a b ha hb]
    by_cases hc : em = t
    · subst hc
      simp
    · have ht : t ≠ em := fun hh => hc hh.symm
      have hb2 : (em == t) = false := beq_false_of_ne hc
      simp [hb2, ht]
  · intro em d t h
    subst h
    simp [should_workspace_be_deleted]
  · intro em d t a b ha hb hlt
    rw [key em d t a b ha hb]
    rw [dateLt_eq_not_dateLe] at hlt
    simp at hlt
    simp [hlt]

/-- Witness for C1 at concrete inputs: the deletion date has passed and
today is not the notification date, so deletion proceeds. -/
theorem C1_deletion_predicate_witness :
    should_workspace_be_deleted "2025-05-01" "2025-06-01" "2025-06-15" = true :=
  (C1_deletion_predicate.1 "2025-05-01" "2025-06-01" "2025-06-15"
      ⟨2025, 6, 1⟩ ⟨2025, 6, 15⟩ (by decide) (by decide)).mpr
    ⟨by decide, by decide⟩

/-- C10: `should_workspace_be_deleted` is total over arbitrary strings,
and whenever `datetime.strptime` rejects the deletion date it returns
false (a malformed deletion date is treated as not yet due), for every
notification date and today string.  Stated for an arbitrary
`strptime` acceptance oracle because CPython's `\d` also accepts
non-ASCII Unicode decimal digits, which the ASCII `parseDate`
under-approximates: the first conjunct instantiated at CPython's
actual parse function is exactly the claim, and the second conjunct
identifies the program's predicate as the `parseDate` instance of the
same code. -/
theorem C10_malformed_deletion_date :
    (∀ (strptime : String → Option Date) (em d t : String),
        strptime d = none →
        should_workspace_be_deleted_gen strptime em d t = false)
    ∧ should_workspace_be_deleted_gen parseDate = should_workspace_be_deleted := by
  refine ⟨?_, should_workspace_be_deleted_gen_parseDate⟩
  intro strptime em d t h
  simp only [should_workspace_be_deleted_gen, is_date_past_or_today_gen, h]
  cases strptime t <;> simp

/-- Witness for C10: a US-format deletion date does not parse, so the
predicate returns false even though the date has passed. -/
theorem C10_malformed_deletion_date_witness :
    should_workspace_be_deleted_gen parseDate "2025-06-02" "06/01/2025" "2025-06-15"
      = false :=
  C10_malformed_deletion_date.1 parseDate "2025-06-02" "06/01/2025" "2025-06-15"
    (by decide)

/-- C4: a token-refresh HTTP 400 response whose OAuth error body is
`invalid_grant` is classified as a structured diagnostic with
error_type `token_revoked` and `get_smartsheet_client` returns no
session; a 400 response with any other OAuth error is classified as
`token_expired`; a non-400 HTTP error is classified as
`network_error`. -/
theorem C4_refresh_failure_classification :
    (refresh_tokens (.httpError 400 (some "invalid_grant"))
        = .error .token_revoked)
    ∧ (∀ (td : TokenData) (save_ok : Bool),
        optTruthy td.accessToken = false →
        (get_smartsheet_client (some td)
            (.httpError 400 (some "invalid_grant")) save_ok).1 = none)
    ∧ (∀ e : String, e ≠ "invalid_grant" →
        refresh_tokens (.httpError 400 (some e)) = .error .token_expired)
    ∧ (∀ (s : Nat) (b : Option String), s ≠ 400 →
        refresh_tokens (.httpError s b) = .error .network_error) := by
  refine ⟨rfl, ?_, ?_, ?_⟩
  · intro td save_ok h
    simp only [get_smartsheet_client, h]
    cases hr : optTruthy td.refreshToken <;> simp [refresh_tokens]
  · intro e he
    have : (e == "invalid_grant") = false := beq_false_of_ne he
    simp [refresh_tokens, this]
  · intro s b hs
    have : (s == 400) = false := beq_false_of_ne hs
    cases b <;> simp [refresh_tokens, this]

/-- Witness for C4 at concrete inputs: a refresh-only credential with a
rejected grant yields no session, `invalid_client` maps to
`token_expired`, and HTTP 503 maps to `network_error`. -/
theorem C4_refresh_failure_classification_witness :
    (get_smartsheet_client (some ⟨none, some "rt"⟩)
        (.httpError 400 (some "invalid_grant")) true).1 = none
    ∧ refresh_tokens (.httpError 400 (some "invalid_client"))
        = .error .token_expired
    ∧ refresh_tokens (.httpError 503 none) = .error .network_error :=
  ⟨C4_refresh_failure_classification.2.1 ⟨none, some "rt"⟩ true (by decide),
   C4_refresh_failure_classification.2.2.1 "invalid_client" (by decide),
   C4_refresh_failure_classification.2.2.2 503 none (by decide)⟩

/-- Counterexample to C7: when the `save_token_secret` write raises
(`save_ok = false`), `get_smartsheet_client` still returns the
refresh-derived session -- the trace records a failed save attempt and
no successful save of the pair -- so the manager can return a
refresh-derived session without having persisted the new pair
(`app_aws_oauth.py` lines 192-199 catch the persist failure, log a
warning, and return the session anyway). -/
theorem C7_counterexample :
    get_smartsheet_client (some ⟨none, some "old-rt"⟩)
        (.success ⟨some "new-at", some "new-rt"⟩) false
      = (some "new-at",
         [.refreshEndpointCall,
          .saveTokensFailed (some "new-at") (some "new-rt"),
          .sessionReturned (some "new-at")])
    ∧ AuthEvent.saveTokensCall (some "new-at") (some "new-rt") ∉
        (get_smartsheet_client (some ⟨none, some "old-rt"⟩)
            (.success ⟨some "new-at", some "new-rt"⟩) false).2 := by
  constructor
  · rfl
  · decide

/-- C7 (amended): whenever `get_smartsheet_client` obtains a session
through a successful refresh-token exchange, it attempts the
`save_token_secret` write of the new access+refresh pair together,
strictly before the session is returned; if the store write succeeds
the pair is persisted before the return, but if the write raises, the
failure is only logged and the refresh-derived session is returned
without the pair having been persisted. -/
theorem C7_refresh_persists_before_return
    (td : TokenData) (resp : RefreshHttpResult) (new_tokens : TokenResponse)
    (save_ok : Bool)
    (hacc : optTruthy td.accessToken = false)
    (href : optTruthy td.refreshToken = true)
    (hok : refresh_tokens resp = .ok new_tokens)
    (hnew : optTruthy new_tokens.access_token = true) :
    get_smartsheet_client (some td) resp save_ok
      = (new_tokens.access_token,
         [.refreshEndpointCall,
          (if save_ok then
            .saveTokensCall new_tokens.access_token new_tokens.refresh_token
           else
            .saveTokensFailed new_tokens.access_token new_tokens.refresh_token),
          .sessionReturned new_tokens.access_token]) := by
  simp only [get_smartsheet_client, hacc, href, hok, hnew]
  simp

/-- Witness for C7 (amended): a stored refresh token, a successful
exchange and a successful store write produce the
refresh-save-return trace with the new pair. -/
theorem C7_refresh_persists_before_return_witness :
    get_smartsheet_client (some ⟨none, some "old-rt"⟩)
        (.success ⟨some "new-at", some "new-rt"⟩) true
      = (some "new-at",
         [.refreshEndpointCall,
          (if true then
            AuthEvent.saveTokensCall (some "new-at") (some "new-rt")
           else
            AuthEvent.saveTokensFailed (some "new-at") (some "new-rt")),
          .sessionReturned (some "new-at")]) :=
  C7_refresh_persists_before_return ⟨none, some "old-rt"⟩
    (.success ⟨some "new-at", some "new-rt"⟩) ⟨some "new-at", some "new-rt"⟩
    true (by decide) (by decide) rfl (by decide)

/-- C8: when the persisted credential contains a (truthy) access token,
`get_smartsheet_client` returns a session built from that token and the
trace contains no refresh-endpoint call. -/
theorem C8_access_token_no_refresh
    (td : TokenData) (resp : RefreshHttpResult) (save_ok : Bool)
    (hacc : optTruthy td.accessToken = true) :
    get_smartsheet_client (some td) resp save_ok
      = (td.accessToken, [.sessionReturned td.accessToken]) := by
  simp [get_smartsheet_client, hacc]

/-- Witness for C8: a stored access token is used directly, with no
refresh call, whatever the refresh endpoint would have answered. -/
theorem C8_access_token_no_refresh_witness :
    get_smartsheet_client (some ⟨some "at", some "rt"⟩)
        (.httpError 400 (some "invalid_grant")) true
      = (some "at", [.sessionReturned (some "at")]) :=
  C8_access_token_no_refresh ⟨some "at", some "rt"⟩
    (.httpError 400 (some "invalid_grant")) true (by decide)

/-- C6: processing a row whose `deletion_status` cell already holds
`"Deleted"` issues no API call at all -- in particular no workspace or
folder deletion call -- and increments only the skipped counter (after
the unconditional processed-rows increment), making reprocessing of
already-handled rows idempotent. -/
theorem C6_deleted_row_is_skipped
    (env : Env) (todays_date : String) (i : Nat) (row : RowData)
    (summary : Summary)
    (hurl : optTruthy row.folder_url = true)
    (hstatus : row.deletion_status = some "Deleted") :
    process_row env todays_date i row summary
      = ({summary with processed_rows := summary.processed_rows + 1,
                       skipped := summary.skipped + 1}, []) := by
  simp [process_row, hurl, hstatus]

/-- Witness for C6: a row already marked Deleted produces an empty API
trace and a single skipped increment. -/
theorem C6_deleted_row_is_skipped_witness :
    process_row
      ⟨fun _ => some 42, fun _ => none, fun _ => [], fun _ => .ok true,
       fun _ => .succeeded⟩
      "2025-06-15" 0
      ⟨11, some "https://app.smartsheet.com/b/home?lx=abc", some "2025-06-01",
       some "2025-05-01", some "Deleted"⟩
      ⟨3, 1, 2, []⟩
      = (⟨4, 1, 3, []⟩, []) :=
  C6_deleted_row_is_skipped
    ⟨fun _ => some 42, fun _ => none, fun _ => [], fun _ => .ok true,
     fun _ => .succeeded⟩
    "2025-06-15" 0
    ⟨11, some "https://app.smartsheet.com/b/home?lx=abc", some "2025-06-01",
     some "2025-05-01", some "Deleted"⟩
    ⟨3, 1, 2, []⟩ (by decide) rfl

/-- C3: for a row with a truthy folder URL and empty deletion status
whose workspace lookup by id returns no metadata, the workflow issues
the status-cell update to `"Deleted"` for that row, counts the row as
skipped, and leaves the summary's errors list unchanged. -/
theorem C3_lookup_miss_heals_row
    (env : Env) (todays_date : String) (i : Nat) (row : RowData)
    (summary : Summary) (u : String) (wid : Nat)
    (hurl : row.folder_url = some u) (hne : u ≠ "")
    (hstatus : row.deletion_status.getD "" = "")
    (hcsv : env.csvLookup u = some wid)
    (hws : env.getWorkspace wid = none) :
    (process_row env todays_date i row summary).2
      = [ApiCall.getWorkspaceCall wid, ApiCall.updateCellCall row.row_id "Deleted"]
    ∧ (process_row env todays_date i row summary).1.skipped = summary.skipped + 1
    ∧ (process_row env todays_date i row summary).1.errors = summary.errors := by
  have htruthy : optTruthy row.folder_url = true := by
    rw [hurl]
    simp [optTruthy, hne]
  simp only [process_row, htruthy, hurl, hstatus, Bool.not_true, Option.getD_some]
  cases env.updateCell row.row_id <;> simp [hcsv, hws, optTruthy, hne]

/-- Witness for C3: a missing workspace leads to a Deleted status
update, a skipped count, and no error entry. -/
theorem C3_lookup_miss_heals_row_witness :
    (process_row
        ⟨fun _ => some 42, fun _ => none, fun _ => [], fun _ => .ok true,
         fun _ => .succeeded⟩
        "2025-06-15" 0
        ⟨11, some "https://app.smartsheet.com/b/home?lx=abc",
         some "2025-06-01", some "2025-05-01", none⟩
        ⟨0, 0, 0, []⟩).2
      = [ApiCall.getWorkspaceCall 42, ApiCall.updateCellCall 11 "Deleted"]
    ∧ (process_row
        ⟨fun _ => some 42, fun _ => none, fun _ => [], fun _ => .ok true,
         fun _ => .succeeded⟩
        "2025-06-15" 0
        ⟨11, some "https://app.smartsheet.com/b/home?lx=abc",
         some "2025-06-01", some "2025-05-01", none⟩
        ⟨0, 0, 0, []⟩).1.skipped = 0 + 1
    ∧ (process_row
        ⟨fun _ => some 42, fun _ => none, fun _ => [], fun _ => .ok true,
         fun _ => .succeeded⟩
        "2025-06-15" 0
        ⟨11, some "https://app.smartsheet.com/b/home?lx=abc",
         some "2025-06-01", some "2025-05-01", none⟩
        ⟨0, 0, 0, []⟩).1.errors = [] :=
  C3_lookup_miss_heals_row
    ⟨fun _ => some 42, fun _ => none, fun _ => [], fun _ => .ok true,
     fun _ => .succeeded⟩
    "2025-06-15" 0
    ⟨11, some "https://app.smartsheet.com/b/home?lx=abc",
     some "2025-06-01", some "2025-05-01", none⟩
    ⟨0, 0, 0, []⟩
    "https://app.smartsheet.com/b/home?lx=abc" 42
    rfl (by decide) rfl rfl rfl

/-- A workspace containing one folder with one nested subfolder,
attached as the environment's `get_workspace_children` response. -/
def nestedFoldersExample : List Child :=
  [Child.obj 1 "Parent" "https://app.smartsheet.com/folders/p1"
      [Child.obj 2 "Sub" "https://app.smartsheet.com/folders/s2" []]]

/-- A deletion-due intake row: folder URL present, empty deletion
status, deletion date before today, notification date different from
today. -/
def dueRowExample : RowData :=
  ⟨11, some "https://app.smartsheet.com/b/home?lx=abc",
   some "2025-06-01", some "2025-05-01", none⟩

/-- Environment for the nested-folders run: the CSV resolves the URL
to workspace 42, the workspace exists, and its children are
`nestedFoldersExample`. -/
def nestedEnvExample : Env :=
  ⟨fun _ => some 42, fun _ => some (), fun _ => nestedFoldersExample,
   fun _ => .ok true, fun _ => .succeeded⟩

/-- C2 (code bug): the claim says the subfolder's deletion call is
issued before the parent folder's; evaluating the workflow at a due
row whose workspace contains folder 1 with nested subfolder 2, the
enumeration raises `AttributeError` at `service.py` line 502, the
row-level handler records the error and skips the row, and NO
`delete_folder` call is issued at all -- neither for the subfolder nor
for the parent.  (Even with the `.data` slip repaired, the loop at
lines 360-362 iterates the manifest in discovery order, parents
first.) -/
theorem C2_no_folder_deletion_reached :
    process_row nestedEnvExample "2025-06-15" 0 dueRowExample ⟨0, 0, 0, []⟩
      = (⟨1, 0, 1, [⟨0, some 11, attrErrorData⟩]⟩, [ApiCall.getWorkspaceCall 42])
    ∧ ApiCall.deleteFolderCall 2 ∉
        (process_row nestedEnvExample "2025-06-15" 0 dueRowExample ⟨0, 0, 0, []⟩).2
    ∧ ApiCall.deleteFolderCall 1 ∉
        (process_row nestedEnvExample "2025-06-15" 0 dueRowExample ⟨0, 0, 0, []⟩).2 := by
  refine ⟨by decide, by decide, by decide⟩

/-- A workspace whose only child is an SDK object with a report
permalink, matching none of the sheet/folder/dashboard patterns. -/
def reportChildExample : List Child :=
  [Child.obj 7 "Quarterly" "https://app.smartsheet.com/reports/r7" []]

/-- Counterexample to C5: applied to the report child -- which matches
none of the sheet, folder, or dashboard patterns -- the enumeration
loop `_process_children_recursive` returns with the summary completely
unchanged: the skipped list is empty and the child was appended to no
list, so it was silently dropped rather than appended to `skipped`
with a reason. -/
theorem C5_counterexample :
    process_children_recursive reportChildExample memptyM = .ok memptyM
    ∧ (process_children_recursive reportChildExample memptyM).toOption.map
        Manifest.skipped = some [] := by
  constructor
  · rfl
  · rfl

/-- C5 (amended): in the enumeration loop, every dict-typed child is
appended to the manifest's skipped list with the recorded reason
`"Child is a dict"`; an SDK-object child whose permalink matches none
of the sheet, folder, or dashboard patterns is appended to no list at
all -- the summary is returned unchanged, so such children are
silently dropped. -/
theorem C5_amended_skip_behaviour :
    (∀ (i n : String) (s : Manifest),
        process_child (Child.dictChild i n) s
          = .ok {s with skipped := s.skipped ++ [⟨i, n, "Child is a dict"⟩]})
    ∧ (∀ (i : Nat) (n p : String) (kids : List Child) (s : Manifest),
        classifyPermalink p = .other →
        process_child (Child.obj i n p kids) s = .ok s) := by
  constructor
  · intro i n s
    rw [process_child]
  · intro i n p kids s h
    rw [process_child, h]

/-- Witness for C5 (amended): a dict child is recorded as skipped, and
the report child of `reportChildExample` leaves the manifest
untouched. -/
theorem C5_amended_skip_behaviour_witness :
    process_child (Child.dictChild "77" "Mystery") memptyM
        = .ok {memptyM with skipped := [⟨"77", "Mystery", "Child is a dict"⟩]}
    ∧ process_child
        (Child.obj 7 "Quarterly" "https://app.smartsheet.com/reports/r7" [])
        memptyM = .ok memptyM :=
  ⟨C5_amended_skip_behaviour.1 "77" "Mystery" memptyM,
   C5_amended_skip_behaviour.2 7 "Quarterly"
     "https://app.smartsheet.com/reports/r7" [] memptyM (by decide)⟩

/-- The workspace children of C9's first scenario: one sheet, one
empty folder, one dashboard. -/
def sheetFolderDashboardExample : List Child :=
  [Child.obj 1 "S" "https://app.smartsheet.com/sheets/s1" [],
   Child.obj 2 "F" "https://app.smartsheet.com/folders/f2" [],
   Child.obj 3 "D" "https://app.smartsheet.com/dashboards/d3" []]

/-- The three-level nested folder chain of C9's second scenario, with
a sheet at every level. -/
def threeLevelChainExample : List Child :=
  [Child.obj 101 "F1" "https://app.smartsheet.com/folders/f1"
     [Child.obj 201 "S1" "https://app.smartsheet.com/sheets/s1" [],
      Child.obj 102 "F2" "https://app.smartsheet.com/folders/f2"
        [Child.obj 202 "S2" "https://app.smartsheet.com/sheets/s2" [],
         Child.obj 103 "F3" "https://app.smartsheet.com/folders/f3"
           [Child.obj 203 "S3" "https://app.smartsheet.com/sheets/s3" []]]]]

/-- C9 (code bug): the claim says `process_workspace_contents` returns
a one-entry-per-list manifest for the sheet/folder/dashboard workspace
and fully traverses the three-level folder chain; evaluating the
staged code, it raises `AttributeError` at `service.py` line 502
(reading `.data` on the plain list returned by
`get_workspace_children`) at both of the claim's inputs -- indeed at
every input -- and never returns a manifest. -/
theorem C9_enumerator_always_raises :
    process_workspace_contents sheetFolderDashboardExample = .error attrErrorData
    ∧ process_workspace_contents threeLevelChainExample = .error attrErrorData
    ∧ ∀ children : List Child,
        process_workspace_contents children = .error attrErrorData :=
  ⟨rfl, rfl, fun _ => rfl⟩
